import Mathlib

/-!
Shallow embedding of the En-Route backend (`backend/server.js`): the
real-time Position Registry and Session Table handlers, the order status
route, the order price computation, and the wallet recharge confirmation
route.  JavaScript numbers are modelled as rationals (`ℚ`); fields that may
be `undefined` in a request payload are modelled as `Option`.  The
floating-point haversine helper `calculateDistance` is transcendental, so
operations that consume it are parametrised by an abstract distance
function `dist : ℚ → ℚ → ℚ → ℚ → ℚ`; every structural property proved here
holds uniformly in that parameter.
-/

namespace EnRoute

/-- JavaScript `x || d` where `x` is a number-or-undefined value: both
`undefined` and `0` are falsy and yield the default `d`. -/
def jsNumOr (x : Option ℚ) (d : ℚ) : ℚ :=
  match x with
  | none => d
  | some v => if v = 0 then d else v

/-- Lookup in a JS `Map` modelled as an insertion-ordered association list. -/
def mapGet (k : String) : List (String × α) → Option α
  | [] => none
  | e :: rest => if e.1 = k then some e.2 else mapGet k rest

/-- JS `Map.set`: replace the value in place if the key is present,
otherwise append the new binding. -/
def mapSet (k : String) (v : α) : List (String × α) → List (String × α)
  | [] => [(k, v)]
  | e :: rest => if e.1 = k then (k, v) :: rest else e :: mapSet k v rest

/-- A `driverPositions` entry (server.js lines 85-94). -/
structure Position where
  lat : ℚ
  lon : ℚ
  speed : ℚ
  heading : ℚ
  battery : ℚ
  isOnline : Bool
  lastUpdate : Nat
  socketId : String
  deriving DecidableEq, Repr

/-- The payload of a `driver:location` event; `speed`, `heading`, `battery`
may be absent numbers and `isOnline` an absent boolean. -/
structure LocationData where
  driverId : String
  lat : ℚ
  lon : ℚ
  speed : Option ℚ
  heading : Option ℚ
  battery : Option ℚ
  isOnline : Option Bool
  deriving DecidableEq, Repr

/-- The `position` object built by the `driver:location` handler
(server.js lines 85-94): `speed || 0`, `heading || 0`, `battery || 100`,
`isOnline !== false`. -/
def mkPosition (sid : String) (now : Nat) (data : LocationData) : Position :=
  { lat := data.lat
    lon := data.lon
    speed := jsNumOr data.speed 0
    heading := jsNumOr data.heading 0
    battery := jsNumOr data.battery 100
    isOnline := data.isOnline ≠ some false
    lastUpdate := now
    socketId := sid }

/-- An `activeOrders` entry (server.js lines 139-145). -/
structure OrderSession where
  orderId : String
  driverId : String
  driverSocketId : Option String
  clientSocketId : Option String
  status : String
  deriving DecidableEq, Repr

/-- The two in-memory maps shared by the socket handlers
(server.js lines 75-76). -/
structure RealtimeState where
  driverPositions : List (String × Position)
  activeOrders : List (String × OrderSession)
  deriving DecidableEq, Repr

/-- The targeted `order:driver_location` payload (server.js lines 116-122);
`speed` and `heading` are forwarded raw from the inbound payload. -/
structure TrackedLocationEvent where
  orderId : String
  lat : ℚ
  lon : ℚ
  speed : Option ℚ
  heading : Option ℚ
  deriving DecidableEq, Repr

/-- The observable output of one `driver:location` handler run: the
broadcast `drivers:update` payload, the optional targeted event together
with its destination handle, and the optional sampled durable write of the
coordinates into the user record. -/
structure LocEmit where
  broadcastPos : String × Position
  sessionEvent : Option (Option String × TrackedLocationEvent)
  durableWrite : Option (String × ℚ × ℚ)
  deriving DecidableEq, Repr

/-- The `driver:location` handler (server.js lines 82-124).  `sample`
stands for the outcome of `Math.random() < 0.1`. -/
def driverLocation (sid : String) (now : Nat) (sample : Bool)
    (data : LocationData) (s : RealtimeState) : RealtimeState × LocEmit :=
  let pos := mkPosition sid now data
  let registry := mapSet data.driverId pos s.driverPositions
  let activeOrder := s.activeOrders.find? (fun e => e.2.driverId = data.driverId)
  let emit : LocEmit :=
    { broadcastPos := (data.driverId, pos)
      sessionEvent := activeOrder.map (fun e =>
        (e.2.clientSocketId,
         { orderId := e.2.orderId, lat := data.lat, lon := data.lon
           speed := data.speed, heading := data.heading }))
      durableWrite := if sample then some (data.driverId, data.lat, data.lon) else none }
  ({ s with driverPositions := registry }, emit)

/-- The `order:track` handler (server.js lines 127-134): if the order id is
known, set its client socket; otherwise do nothing. -/
def orderTrack (sid : String) (orderId clientId : String)
    (sessions : List (String × OrderSession)) : List (String × OrderSession) :=
  match mapGet orderId sessions with
  | some o => mapSet orderId { o with clientSocketId := some sid } sessions
  | none => sessions

/-- The `driver:accept_order` handler (server.js lines 137-146): store a
brand-new session object, with `clientSocketId` null. -/
def driverAcceptOrder (sid : String) (orderId driverId : String)
    (sessions : List (String × OrderSession)) : List (String × OrderSession) :=
  mapSet orderId
    { orderId := orderId, driverId := driverId, driverSocketId := some sid
      clientSocketId := none, status := "accepted" } sessions

/-- The `disconnect` handler's effect on `driverPositions`
(server.js lines 185-196): every entry whose `socketId` matches is flipped
to `isOnline = false` in place; the second component lists the
`drivers:update` payloads it rebroadcasts. -/
def disconnectHandler (sid : String) (registry : List (String × Position)) :
    List (String × Position) × List (String × Position) :=
  let registry2 := registry.map (fun e =>
    if e.2.socketId = sid then (e.1, { e.2 with isOnline := false }) else e)
  (registry2, registry2.filter (fun e => e.2.socketId = sid))

/-- The `status` enum of the order schema (server.js lines 349-363). -/
inductive OrderStatus
  | pending | accepted | driver_coming | loading | in_transit
  | unloading | completed | cancelled | disputed
  deriving DecidableEq, Repr

/-- Parse a request's `status` string against the schema enum; `none` means
the mongoose enum validator would reject the save. -/
def statusOfString : String → Option OrderStatus
  | "pending" => some .pending
  | "accepted" => some .accepted
  | "driver_coming" => some .driver_coming
  | "loading" => some .loading
  | "in_transit" => some .in_transit
  | "unloading" => some .unloading
  | "completed" => some .completed
  | "cancelled" => some .cancelled
  | "disputed" => some .disputed
  | _ => none

/-- A GPS tracking point of an order (server.js lines 411-416); only the
coordinates are consumed by the modelled logic. -/
structure TrackPoint where
  lat : ℚ
  lon : ℚ
  deriving DecidableEq, Repr

/-- The slice of a durable order consumed by the status route. -/
structure OrderRec where
  driverId : String
  status : OrderStatus
  tracking : List TrackPoint
  estimated_km : Option ℚ
  actual_km : Option ℚ
  startedAt : Option Nat
  completedAt : Option Nat
  deriving DecidableEq, Repr

/-- The driver-profile counters touched by the completion branch
(server.js lines 1392-1397). -/
structure DriverStats where
  totalTrips : Nat
  totalKm : ℚ
  deriving DecidableEq, Repr

/-- JS `Math.round(x*10)/10` — round to one decimal.  `Math.round` is
`⌊x + 1/2⌋`, which is Mathlib's `round`. -/
def round1 (q : ℚ) : ℚ := ((round (q * 10) : ℤ) : ℚ) / 10

/-- The loop of server.js lines 1379-1387: sum of `calculateDistance` over
consecutive tracked points in stored order.  `dist` abstracts the
floating-point haversine helper `calculateDistance` (lines 624-634). -/
def pathLength (dist : ℚ → ℚ → ℚ → ℚ → ℚ) : List TrackPoint → ℚ
  | a :: b :: rest => dist a.lat a.lon b.lat b.lon + pathLength dist (b :: rest)
  | _ => 0

/-- The mutation performed by `PUT /api/orders/:id/status` once the caller
is authorized and the status string parsed (server.js lines 1371-1398):
set the status unconditionally, stamp `startedAt` on `in_transit`, and on
`completed` stamp `completedAt`, recompute `actual_km` when more than one
tracking point exists, and increment the driver's counters by
`actual_km || estimated_km || 0`. -/
def applyStatus (dist : ℚ → ℚ → ℚ → ℚ → ℚ) (now : Nat)
    (o : OrderRec) (st : DriverStats) (s : OrderStatus) : OrderRec × DriverStats :=
  let o1 := { o with status := s }
  let o2 := if s = OrderStatus.in_transit then { o1 with startedAt := some now } else o1
  if s = OrderStatus.completed then
    let o3 := { o2 with completedAt := some now }
    let o4 := if 1 < o3.tracking.length
      then { o3 with actual_km := some (round1 (pathLength dist o3.tracking)) }
      else o3
    let inc := jsNumOr o4.actual_km (jsNumOr o4.estimated_km 0)
    (o4, { totalTrips := st.totalTrips + 1, totalKm := st.totalKm + inc })
  else (o2, st)

/-- Error outcomes of the status route. -/
inductive RouteError
  | notFound | notAuthorized | serverError
  deriving DecidableEq, Repr

/-- `PUT /api/orders/:id/status` (server.js lines 1349-1417): 404 when the
order is unknown, 403 unless the caller is the assigned driver or an
admin, then the unconditional mutation; a status string outside the schema
enum makes the final `order.save()` throw, so the durable state is
unchanged and the route answers 500. -/
def orderStatusRoute (dist : ℚ → ℚ → ℚ → ℚ → ℚ) (now : Nat)
    (callerId callerType : String) (order : Option OrderRec) (st : DriverStats)
    (statusStr : String) : Except RouteError (OrderRec × DriverStats) :=
  match order with
  | none => .error .notFound
  | some o =>
    if o.driverId = callerId ∨ callerType = "admin" then
      match statusOfString statusStr with
      | some s => .ok (applyStatus dist now o st s)
      | none => .error .serverError
    else .error .notAuthorized

/-- Modelled from the spec: the permitted transition graph of §4.3 — the
chain `pending → accepted → driver_coming → loading → in_transit →
unloading → completed` with `cancelled` and `disputed` reachable from any
non-terminal state (`completed` and `cancelled` terminal).  The source
route performs no such check; this definition exists only to state the
claimed property. -/
def specChainNext : OrderStatus → Option OrderStatus
  | .pending => some .accepted
  | .accepted => some .driver_coming
  | .driver_coming => some .loading
  | .loading => some .in_transit
  | .in_transit => some .unloading
  | .unloading => some .completed
  | _ => none

/-- Modelled from the spec: `completed` and `cancelled` are terminal. -/
def specIsTerminal (s : OrderStatus) : Bool :=
  s = OrderStatus.completed ∨ s = OrderStatus.cancelled

/-- Modelled from the spec: whether a transition lies inside the permitted
graph of §4.3. -/
def specAllowedTransition (a b : OrderStatus) : Bool :=
  specChainNext a = some b ∨
    ((b = OrderStatus.cancelled ∨ b = OrderStatus.disputed) ∧ ¬ specIsTerminal a)

/-- A geolocated endpoint of an order (`pickup` / `dropoff`). -/
structure GeoPoint where
  lat : ℚ
  lon : ℚ
  deriving DecidableEq, Repr

/-- The price triple computed at order creation. -/
structure PriceQuote where
  amount : ℚ
  platformFee : ℚ
  driverShare : ℚ
  deriving DecidableEq, Repr

/-- The price computation of `POST /api/orders` (server.js lines
1100-1110): `amount = vehicle.pricing.minimumPrice || 5000`, raised to
`max(amount, distance * (pricePerKm || 500))` for a transport order whose
pickup and dropoff latitudes are truthy (present and nonzero); then
`platformFee = Math.round(amount * 0.15)` and
`driverShare = amount - platformFee`. -/
def computeOrderPrice (dist : ℚ → ℚ → ℚ → ℚ → ℚ) (serviceType : String)
    (pickup : GeoPoint) (dropoff : Option GeoPoint)
    (minimumPrice pricePerKm : Option ℚ) : PriceQuote :=
  let amount0 := jsNumOr minimumPrice 5000
  let amount :=
    match dropoff with
    | some dp =>
      if serviceType = "transport" ∧ pickup.lat ≠ 0 ∧ dp.lat ≠ 0 then
        max amount0 (dist pickup.lat pickup.lon dp.lat dp.lon * jsNumOr pricePerKm 500)
      else amount0
    | none => amount0
  let platformFee := ((round (amount * (15 / 100 : ℚ)) : ℤ) : ℚ)
  { amount := amount, platformFee := platformFee, driverShare := amount - platformFee }

/-- The amount the spec's price property asserts: `max(M, D × R)`. -/
def specPriceAmount (M R D : ℚ) : ℚ := max M (D * R)

/-- The slice of a `WalletTransaction` consumed by the confirm-recharge
route. -/
structure WalletTxn where
  amount : ℚ
  status : String
  confirmedAt : Option Nat
  confirmedBy : Option String
  deriving DecidableEq, Repr

/-- The durable state touched by `POST /api/admin/confirm-recharge/:id`:
the addressed transaction (if it exists) and the owning user's wallet
balance. -/
structure RechargeState where
  txn : Option WalletTxn
  balance : ℚ
  deriving DecidableEq, Repr

/-- First durable step of the confirm-recharge route (server.js lines
1672-1675): mark the transaction confirmed and save it.  With no
transaction the route answers 404 before any write. -/
def confirmRechargeSave (admin : String) (now : Nat) (s : RechargeState) : RechargeState :=
  match s.txn with
  | none => s
  | some t =>
    { s with txn := some { t with status := "confirmed", confirmedAt := some now
                                  confirmedBy := some admin } }

/-- Second durable step (server.js lines 1678-1680): `$inc` the user's
wallet balance by the transaction amount. -/
def confirmRechargeCredit (s : RechargeState) : RechargeState :=
  match s.txn with
  | none => s
  | some t => { s with balance := s.balance + t.amount }

/-- The whole confirm-recharge route (server.js lines 1661-1694): save the
confirmed status first, then credit the balance; no guard on the
transaction's current status. -/
def confirmRecharge (admin : String) (now : Nat) (s : RechargeState) : RechargeState :=
  confirmRechargeCredit (confirmRechargeSave admin now s)

/-! ### Association-map lemmas -/

theorem mapGet_mapSet_self (k : String) (v : α) (l : List (String × α)) :
    mapGet k (mapSet k v l) = some v := by
  induction l with
  | nil => simp [mapGet, mapSet]
  | cons e rest ih =>
    by_cases h : e.1 = k
    · simp [mapGet, mapSet, h]
    · simp [mapGet, mapSet, h, ih]

theorem mapGet_mapSet_ne (k k2 : String) (v : α) (l : List (String × α))
    (h : k ≠ k2) : mapGet k2 (mapSet k v l) = mapGet k2 l := by
  induction l with
  | nil => simp [mapGet, mapSet, h]
  | cons e rest ih =>
    by_cases he : e.1 = k
    · simp [mapGet, mapSet, he, h]
    · by_cases he2 : e.1 = k2 <;> simp [mapGet, mapSet, he, he2, ih, Ne.symm h]

/-! ### Claim theorems -/

/-- C1 (counterexample): a client handle attached by a track request IS
overwritten by a subsequent `driver:accept_order` for the same order: the
accept handler stores a fresh session object with `clientSocketId = null`,
so after accept, track, accept the client handle is `none` although it was
`some "cs1"` after the track. -/
theorem accept_overwrites_tracked_client_handle :
    mapGet "o1" (orderTrack "cs1" "o1" "c1" (driverAcceptOrder "ds1" "o1" "d1" [])) =
      some { orderId := "o1", driverId := "d1", driverSocketId := some "ds1",
             clientSocketId := some "cs1", status := "accepted" } ∧
    mapGet "o1" (driverAcceptOrder "ds2" "o1" "d1"
        (orderTrack "cs1" "o1" "c1" (driverAcceptOrder "ds1" "o1" "d1" []))) =
      some { orderId := "o1", driverId := "d1", driverSocketId := some "ds2",
             clientSocketId := none, status := "accepted" } := by
  refine ⟨by decide, by decide⟩

/-- C1 (amended): a track request only replaces the client-handle field of
an existing session entry, leaving the driver id, driver handle and status
untouched; a driver-accept event however replaces the whole entry,
resetting the client handle to null — the two fields are not independently
settable in that direction. -/
theorem track_preserves_driver_fields_accept_resets_client
    (sid cid oid did sid2 : String) (sessions : List (String × OrderSession))
    (e : OrderSession) (h : mapGet oid sessions = some e) :
    mapGet oid (orderTrack sid oid cid sessions) =
      some { e with clientSocketId := some sid } ∧
    mapGet oid (driverAcceptOrder sid2 oid did sessions) =
      some { orderId := oid, driverId := did, driverSocketId := some sid2,
             clientSocketId := none, status := "accepted" } := by
  constructor
  · simp [orderTrack, h, mapGet_mapSet_self]
  · simp [driverAcceptOrder, mapGet_mapSet_self]

/-- C1 (witness for the amended theorem). -/
theorem track_preserves_driver_fields_accept_resets_client_witness :
    mapGet "o1" [("o1", (⟨"o1", "d1", some "ds1", none, "accepted"⟩ : OrderSession))] =
      some { orderId := "o1", driverId := "d1", driverSocketId := some "ds1",
             clientSocketId := none, status := "accepted" } ∧
    (mapGet "o1" (orderTrack "cs1" "o1" "c1"
        [("o1", (⟨"o1", "d1", some "ds1", none, "accepted"⟩ : OrderSession))]) =
      some { orderId := "o1", driverId := "d1", driverSocketId := some "ds1",
             clientSocketId := some "cs1", status := "accepted" } ∧
     mapGet "o1" (driverAcceptOrder "ds9" "o1" "d1"
        [("o1", (⟨"o1", "d1", some "ds1", none, "accepted"⟩ : OrderSession))]) =
      some { orderId := "o1", driverId := "d1", driverSocketId := some "ds9",
             clientSocketId := none, status := "accepted" }) :=
  ⟨by decide,
   track_preserves_driver_fields_accept_resets_client "cs1" "c1" "o1" "d1" "ds9"
     [("o1", (⟨"o1", "d1", some "ds1", none, "accepted"⟩ : OrderSession))]
     ⟨"o1", "d1", some "ds1", none, "accepted"⟩ (by decide)⟩

/-- C8 (counterexample): a track request naming an order id that is not a
known session does NOT create a Session Table entry on demand — after
tracking the unknown order `"o1"` on an empty table there is still no
entry for `"o1"`. -/
theorem track_unknown_order_creates_no_entry :
    mapGet "o1" (orderTrack "s1" "o1" "c1" []) = none ∧
    orderTrack "s1" "o1" "c1" ([] : List (String × OrderSession)) = [] := by
  refine ⟨by decide, by decide⟩

/-- C8 (amended): a track request for an order id that is not a known
session is a silent no-op — no error is raised and the Session Table is
left completely unchanged; no entry is created on demand, so the client
handle can attach only once the driver's accept has created the entry. -/
theorem track_unknown_order_is_noop (sid oid cid : String)
    (sessions : List (String × OrderSession)) (h : mapGet oid sessions = none) :
    orderTrack sid oid cid sessions = sessions := by
  simp [orderTrack, h]

/-- C8 (witness for the amended theorem). -/
theorem track_unknown_order_is_noop_witness :
    mapGet "o2" [("o1", (⟨"o1", "d1", some "ds1", none, "accepted"⟩ : OrderSession))] =
        none ∧
    orderTrack "s1" "o2" "c1"
        [("o1", (⟨"o1", "d1", some "ds1", none, "accepted"⟩ : OrderSession))] =
      [("o1", (⟨"o1", "d1", some "ds1", none, "accepted"⟩ : OrderSession))] :=
  ⟨by decide,
   track_unknown_order_is_noop "s1" "o2" "c1"
     [("o1", (⟨"o1", "d1", some "ds1", none, "accepted"⟩ : OrderSession))] (by decide)⟩

/-- C6 (counterexample): the `driver:location` handler does not return (or
otherwise expose) the previous online flag of the replaced entry: its
entire output — new state and all emitted events — is identical on two
states that differ exactly in the stored entry's `isOnline` flag, so no
caller can detect an online/offline transition from it. -/
theorem location_report_ignores_previous_online_flag :
    (driverLocation "s9" 7 false
        (⟨"d1", 5, 6, none, none, none, none⟩ : LocationData)
        (⟨[("d1", (⟨1, 2, 3, 4, 50, true, 0, "s0"⟩ : Position))], []⟩ : RealtimeState) =
      driverLocation "s9" 7 false
        (⟨"d1", 5, 6, none, none, none, none⟩ : LocationData)
        (⟨[("d1", (⟨1, 2, 3, 4, 50, false, 0, "s0"⟩ : Position))], []⟩ : RealtimeState)) ∧
    ([("d1", (⟨1, 2, 3, 4, 50, true, 0, "s0"⟩ : Position))] ≠
      [("d1", (⟨1, 2, 3, 4, 50, false, 0, "s0"⟩ : Position))]) := by
  refine ⟨by decide, by decide⟩

/-- C6 (amended): a location report replaces the driver's Position
Registry entry unconditionally with a whole new value built only from the
report, the reporting socket and the current time — no partial merge with,
and no return of, the previous entry. -/
theorem location_report_replaces_entry_wholesale (sid : String) (now : Nat)
    (sample : Bool) (data : LocationData) (s : RealtimeState) :
    mapGet data.driverId (driverLocation sid now sample data s).1.driverPositions =
      some (mkPosition sid now data) := by
  simp [driverLocation, mapGet_mapSet_self]

/-- Pointwise description of the disconnect handler's effect on the
registry: the lookup after a disconnect is the lookup before it, with
`isOnline` cleared exactly on entries bound to the disconnecting socket. -/
theorem mapGet_disconnectHandler (sid k : String) (l : List (String × Position)) :
    mapGet k (disconnectHandler sid l).1 =
      (mapGet k l).map
        (fun p => if p.socketId = sid then { p with isOnline := false } else p) := by
  simp only [disconnectHandler]
  induction l with
  | nil => simp [mapGet]
  | cons e rest ih =>
    by_cases hk : e.1 = k
    · by_cases hs : e.2.socketId = sid <;> simp [mapGet, hk, hs]
    · by_cases hs : e.2.socketId = sid <;> simp [mapGet, hk, hs, ih]

/-- C7: processing a disconnect of socket `sid` flips `isOnline` to false
on every Position Registry entry bound to `sid`, changing nothing else of
those entries; every entry bound to another socket is left exactly as it
was; and no entry is created or deleted (the lookup is `none` after the
disconnect exactly when it was `none` before), keeping "absent" and
"offline" distinguishable. -/
theorem disconnect_marks_bound_entries_offline (sid : String)
    (l : List (String × Position)) (k : String) :
    (∀ p, mapGet k l = some p → p.socketId = sid →
        mapGet k (disconnectHandler sid l).1 = some { p with isOnline := false }) ∧
    (∀ p, mapGet k l = some p → p.socketId ≠ sid →
        mapGet k (disconnectHandler sid l).1 = some p) ∧
    (mapGet k (disconnectHandler sid l).1 = none ↔ mapGet k l = none) := by
  refine ⟨?_, ?_, ?_⟩
  · intro p hp hps
    rw [mapGet_disconnectHandler, hp]
    simp [hps]
  · intro p hp hps
    rw [mapGet_disconnectHandler, hp]
    simp [hps]
  · rw [mapGet_disconnectHandler]
    cases h : mapGet k l <;> simp

/-- C7 (witness): a two-entry registry in which exactly one entry is bound
to the disconnecting socket. -/
theorem disconnect_marks_bound_entries_offline_witness :
    ((⟨9, 9, 0, 0, 80, true, 3, "sA"⟩ : Position).socketId = "sA" ∧
      mapGet "d1" (disconnectHandler "sA"
        [("d1", (⟨9, 9, 0, 0, 80, true, 3, "sA"⟩ : Position)),
         ("d2", (⟨4, 4, 1, 1, 60, true, 3, "sB"⟩ : Position))]).1 =
        some { (⟨9, 9, 0, 0, 80, true, 3, "sA"⟩ : Position) with isOnline := false }) ∧
    ((⟨4, 4, 1, 1, 60, true, 3, "sB"⟩ : Position).socketId ≠ "sA" ∧
      mapGet "d2" (disconnectHandler "sA"
        [("d1", (⟨9, 9, 0, 0, 80, true, 3, "sA"⟩ : Position)),
         ("d2", (⟨4, 4, 1, 1, 60, true, 3, "sB"⟩ : Position))]).1 =
        some (⟨4, 4, 1, 1, 60, true, 3, "sB"⟩ : Position)) :=
  ⟨⟨by decide,
    (disconnect_marks_bound_entries_offline "sA"
      [("d1", (⟨9, 9, 0, 0, 80, true, 3, "sA"⟩ : Position)),
       ("d2", (⟨4, 4, 1, 1, 60, true, 3, "sB"⟩ : Position))] "d1").1
      ⟨9, 9, 0, 0, 80, true, 3, "sA"⟩ (by decide) (by decide)⟩,
   ⟨by decide,
    (disconnect_marks_bound_entries_offline "sA"
      [("d1", (⟨9, 9, 0, 0, 80, true, 3, "sA"⟩ : Position)),
       ("d2", (⟨4, 4, 1, 1, 60, true, 3, "sB"⟩ : Position))] "d2").2.1
      ⟨4, 4, 1, 1, 60, true, 3, "sB"⟩ (by decide) (by decide)⟩⟩

/-- C10: the entry a location report stores applies JS falsy-value
defaulting — `speed` and `heading` default to 0 when absent, `battery`
defaults to 100 when absent or reported as exactly 0, and `isOnline` is
stored as false exactly when the payload carries the literal `false` (an
omitted `isOnline` means online). -/
theorem location_report_falsy_defaulting (sid : String) (now : Nat)
    (sample : Bool) (data : LocationData) (s : RealtimeState) :
    mapGet data.driverId (driverLocation sid now sample data s).1.driverPositions =
      some (mkPosition sid now data) ∧
    (data.speed = none → (mkPosition sid now data).speed = 0) ∧
    (∀ v, data.speed = some v → (mkPosition sid now data).speed = v) ∧
    (data.heading = none → (mkPosition sid now data).heading = 0) ∧
    (∀ v, data.heading = some v → (mkPosition sid now data).heading = v) ∧
    (data.battery = none ∨ data.battery = some 0 →
      (mkPosition sid now data).battery = 100) ∧
    (∀ v, data.battery = some v → v ≠ 0 → (mkPosition sid now data).battery = v) ∧
    ((mkPosition sid now data).isOnline = false ↔ data.isOnline = some false) := by
  refine ⟨by simp [driverLocation, mapGet_mapSet_self], ?_, ?_, ?_, ?_, ?_, ?_, ?_⟩
  · intro h; simp [mkPosition, jsNumOr, h]
  · intro v h
    by_cases hv : v = 0 <;> simp [mkPosition, jsNumOr, h, hv]
  · intro h; simp [mkPosition, jsNumOr, h]
  · intro v h
    by_cases hv : v = 0 <;> simp [mkPosition, jsNumOr, h, hv]
  · rintro (h | h) <;> simp [mkPosition, jsNumOr, h]
  · intro v h hv; simp [mkPosition, jsNumOr, h, hv]
  · rcases ho : data.isOnline with _ | b
    · simp [mkPosition, ho]
    · cases b <;> simp [mkPosition, ho]

/-- C10 (witness): a report with absent speed and heading, battery
reported as exactly 0, and no isOnline field. -/
theorem location_report_falsy_defaulting_witness :
    mapGet "d1" (driverLocation "s1" 4 false
        (⟨"d1", 5, 6, none, none, some 0, none⟩ : LocationData)
        (⟨[], []⟩ : RealtimeState)).1.driverPositions =
      some (mkPosition "s1" 4 (⟨"d1", 5, 6, none, none, some 0, none⟩ : LocationData)) ∧
    (mkPosition "s1" 4 (⟨"d1", 5, 6, none, none, some 0, none⟩ : LocationData)).speed = 0 ∧
    (mkPosition "s1" 4 (⟨"d1", 5, 6, none, none, some 0, none⟩ : LocationData)).heading = 0 ∧
    (mkPosition "s1" 4 (⟨"d1", 5, 6, none, none, some 0, none⟩ : LocationData)).battery = 100 ∧
    (mkPosition "s1" 4 (⟨"d1", 5, 6, none, none, some 0, none⟩ : LocationData)).isOnline = true := by
  obtain ⟨h1, h2, _, h4, _, h6, _, h8⟩ :=
    location_report_falsy_defaulting "s1" 4 false
      (⟨"d1", 5, 6, none, none, some 0, none⟩ : LocationData) (⟨[], []⟩ : RealtimeState)
  refine ⟨h1, h2 rfl, h4 rfl, h6 (Or.inr rfl), ?_⟩
  have := h8.mpr
  cases hb : (mkPosition "s1" 4
      (⟨"d1", 5, 6, none, none, some 0, none⟩ : LocationData)).isOnline
  · exact absurd (h8.mp hb) (by simp)
  · rfl

/-- The status field of the order after the status-route mutation is
always the requested status — the route never restores a previous one. -/
theorem applyStatus_fst_status (dist : ℚ → ℚ → ℚ → ℚ → ℚ) (now : Nat)
    (o : OrderRec) (st : DriverStats) (s : OrderStatus) :
    ((applyStatus dist now o st s).1).status = s := by
  simp only [applyStatus]
  split_ifs <;> rfl

/-- C2 (counterexample): the transition `pending → completed` lies outside
the spec's permitted graph, yet the status route applies it: for an order
in status `pending`, an authorized request for `"completed"` succeeds and
leaves the order in status `completed`, not unchanged. -/
theorem status_route_accepts_pending_to_completed :
    (∃ r, orderStatusRoute (fun _ _ _ _ => 1) 0 "drv" "driver"
        (some (⟨"drv", .pending, [], none, none, none, none⟩ : OrderRec))
        (⟨0, 0⟩ : DriverStats) "completed" = .ok r ∧
      r.1.status = .completed ∧ r.1.status ≠ .pending) ∧
    specAllowedTransition .pending .completed = false :=
  ⟨⟨_, rfl, by decide, by decide⟩, by decide⟩

/-- C2 (amended): the status route performs no transition validation at
all — for an authorized caller (assigned driver or admin) any of the nine
schema statuses is applied unconditionally, whatever the current status,
so transitions outside the spec's graph are accepted rather than
rejected; only a status string outside the schema enum fails (the save's
enum validator throws), leaving the stored order unchanged. -/
theorem status_route_no_transition_validation
    (dist : ℚ → ℚ → ℚ → ℚ → ℚ) (now : Nat) (callerId callerType : String)
    (o : OrderRec) (st : DriverStats) (statusStr : String)
    (hAuth : o.driverId = callerId ∨ callerType = "admin") :
    (∀ s, statusOfString statusStr = some s →
      ∃ r, orderStatusRoute dist now callerId callerType (some o) st statusStr =
          .ok r ∧ r.1.status = s) ∧
    (statusOfString statusStr = none →
      orderStatusRoute dist now callerId callerType (some o) st statusStr =
        .error .serverError) := by
  constructor
  · intro s hs
    refine ⟨applyStatus dist now o st s, ?_, applyStatus_fst_status dist now o st s⟩
    simp only [orderStatusRoute, hs, if_pos hAuth]
  · intro hs
    simp only [orderStatusRoute, hs, if_pos hAuth]

/-- C2 (witness for the amended theorem): an admin moving an `accepted`
order straight to `unloading` (also outside the graph), and the rejected
string `"shipped"`. -/
theorem status_route_no_transition_validation_witness :
    ((("drv" : String) = "adm" ∨ ("admin" : String) = "admin") ∧
      ∀ s, statusOfString "unloading" = some s →
        ∃ r, orderStatusRoute (fun _ _ _ _ => 1) 3 "adm" "admin"
            (some (⟨"drv", .accepted, [], none, none, none, none⟩ : OrderRec))
            (⟨0, 0⟩ : DriverStats) "unloading" = .ok r ∧ r.1.status = s) ∧
    (statusOfString "shipped" = none →
      orderStatusRoute (fun _ _ _ _ => 1) 3 "adm" "admin"
          (some (⟨"drv", .accepted, [], none, none, none, none⟩ : OrderRec))
          (⟨0, 0⟩ : DriverStats) "shipped" = .error .serverError) :=
  ⟨⟨Or.inr rfl,
    (status_route_no_transition_validation (fun _ _ _ _ => 1) 3 "adm" "admin"
      (⟨"drv", .accepted, [], none, none, none, none⟩ : OrderRec)
      (⟨0, 0⟩ : DriverStats) "unloading" (Or.inr rfl)).1⟩,
   (status_route_no_transition_validation (fun _ _ _ _ => 1) 3 "adm" "admin"
      (⟨"drv", .accepted, [], none, none, none, none⟩ : OrderRec)
      (⟨0, 0⟩ : DriverStats) "shipped" (Or.inr rfl)).2⟩

/-- C9 (counterexample): a repeated `completed` status update on an order
that is already completed (its `actual_km` already computed) re-applies
the driver-stats increment — `totalTrips` goes from 3 to 4 — and
recomputes `actual_km`; nothing in the route guards against repetition. -/
theorem repeated_completion_reapplies_driver_stats :
    ∃ r, orderStatusRoute (fun _ _ _ _ => 1) 9 "drv" "driver"
        (some (⟨"drv", .completed, [⟨0, 0⟩, ⟨1, 1⟩], some 7, some 1,
                some 1, some 2⟩ : OrderRec))
        (⟨3, 10⟩ : DriverStats) "completed" = .ok r ∧
      r.2.totalTrips = 4 ∧
      r.1.actual_km =
        some (round1 (pathLength (fun _ _ _ _ => 1)
          [(⟨0, 0⟩ : TrackPoint), ⟨1, 1⟩])) :=
  ⟨_, rfl, by decide, rfl⟩

/-- C9 (amended): `actual_km` is recomputed and the driver-stats increment
re-applied on every `completed` status update, including updates to an
order that is already completed; the route supports no
compute-at-most-once discipline. -/
theorem completed_update_always_reapplies
    (dist : ℚ → ℚ → ℚ → ℚ → ℚ) (now : Nat) (callerId callerType : String)
    (o : OrderRec) (st : DriverStats)
    (hAuth : o.driverId = callerId ∨ callerType = "admin")
    (hDone : o.status = .completed) :
    ∃ r, orderStatusRoute dist now callerId callerType (some o) st "completed" =
        .ok r ∧
      r.2.totalTrips = st.totalTrips + 1 ∧
      (1 < o.tracking.length →
        r.1.actual_km = some (round1 (pathLength dist o.tracking))) := by
  refine ⟨applyStatus dist now o st .completed, ?_, ?_, ?_⟩
  · simp only [orderStatusRoute, if_pos hAuth]
    rfl
  · simp [applyStatus]
  · intro hLen
    simp [applyStatus, hLen]

/-- C9 (witness for the amended theorem). -/
theorem completed_update_always_reapplies_witness :
    (("drv" : String) = "drv" ∨ ("driver" : String) = "admin") ∧
    (⟨"drv", .completed, [⟨0, 0⟩, ⟨1, 1⟩], some 7, some 1,
       some 1, some 2⟩ : OrderRec).status = .completed ∧
    (∃ r, orderStatusRoute (fun _ _ _ _ => 1) 9 "drv" "driver"
        (some (⟨"drv", .completed, [⟨0, 0⟩, ⟨1, 1⟩], some 7, some 1,
                some 1, some 2⟩ : OrderRec))
        (⟨3, 10⟩ : DriverStats) "completed" = .ok r ∧
      r.2.totalTrips = (⟨3, 10⟩ : DriverStats).totalTrips + 1 ∧
      (1 < (⟨"drv", .completed, [⟨0, 0⟩, ⟨1, 1⟩], some 7, some 1,
             some 1, some 2⟩ : OrderRec).tracking.length →
        r.1.actual_km =
          some (round1 (pathLength (fun _ _ _ _ => 1)
            (⟨"drv", .completed, [⟨0, 0⟩, ⟨1, 1⟩], some 7, some 1,
              some 1, some 2⟩ : OrderRec).tracking)))) :=
  ⟨Or.inl rfl, rfl,
   completed_update_always_reapplies (fun _ _ _ _ => 1) 9 "drv" "driver"
     (⟨"drv", .completed, [⟨0, 0⟩, ⟨1, 1⟩], some 7, some 1, some 1, some 2⟩ : OrderRec)
     (⟨3, 10⟩ : DriverStats) (Or.inl rfl) rfl⟩

/-- C5: completing an order whose tracking sequence has at least 2 points
sets `actual_km` to the sum of the consecutive-pair distances taken in
stored order, rounded to one decimal, increments the driver's trip count
by 1, and increments the driver's cumulative distance by the computed
actual distance when it is nonzero (JS truthiness: the source's
`actual_km || estimated_km || 0` treats a 0 value like an absent one),
else by the estimated distance under the same falsy defaulting, else by
zero. -/
theorem completion_computes_actual_distance_and_stats
    (dist : ℚ → ℚ → ℚ → ℚ → ℚ) (now : Nat) (callerId callerType : String)
    (o : OrderRec) (st : DriverStats)
    (hAuth : o.driverId = callerId ∨ callerType = "admin")
    (hLen : 2 ≤ o.tracking.length) :
    ∃ r, orderStatusRoute dist now callerId callerType (some o) st "completed" =
        .ok r ∧
      r.1.actual_km = some (round1 (pathLength dist o.tracking)) ∧
      r.2.totalTrips = st.totalTrips + 1 ∧
      r.2.totalKm = st.totalKm +
        (if round1 (pathLength dist o.tracking) = 0 then jsNumOr o.estimated_km 0
         else round1 (pathLength dist o.tracking)) := by
  have hLen2 : 1 < o.tracking.length := hLen
  refine ⟨applyStatus dist now o st .completed, ?_, ?_, ?_, ?_⟩
  · simp only [orderStatusRoute, if_pos hAuth]
    rfl
  · simp [applyStatus, hLen2]
  · simp [applyStatus]
  · simp [applyStatus, hLen2, jsNumOr]

/-- C5 (witness): a three-point track under a concrete distance function
that returns 2 for every pair, so `actual_km = round1 (2 + 2) = 4`. -/
theorem completion_computes_actual_distance_and_stats_witness :
    (("drv" : String) = "drv" ∨ ("driver" : String) = "admin") ∧
    2 ≤ (⟨"drv", .in_transit, [⟨0, 0⟩, ⟨3, 4⟩, ⟨6, 8⟩], none, none,
          some 1, none⟩ : OrderRec).tracking.length ∧
    (∃ r, orderStatusRoute (fun _ _ _ _ => 2) 9 "drv" "driver"
        (some (⟨"drv", .in_transit, [⟨0, 0⟩, ⟨3, 4⟩, ⟨6, 8⟩], none, none,
                some 1, none⟩ : OrderRec))
        (⟨0, 0⟩ : DriverStats) "completed" = .ok r ∧
      r.1.actual_km =
        some (round1 (pathLength (fun _ _ _ _ => 2)
          (⟨"drv", .in_transit, [⟨0, 0⟩, ⟨3, 4⟩, ⟨6, 8⟩], none, none,
            some 1, none⟩ : OrderRec).tracking)) ∧
      r.2.totalTrips = (⟨0, 0⟩ : DriverStats).totalTrips + 1 ∧
      r.2.totalKm = (⟨0, 0⟩ : DriverStats).totalKm +
        (if round1 (pathLength (fun _ _ _ _ => 2)
              (⟨"drv", .in_transit, [⟨0, 0⟩, ⟨3, 4⟩, ⟨6, 8⟩], none, none,
                some 1, none⟩ : OrderRec).tracking) = 0
         then jsNumOr (⟨"drv", .in_transit, [⟨0, 0⟩, ⟨3, 4⟩, ⟨6, 8⟩], none, none,
                some 1, none⟩ : OrderRec).estimated_km 0
         else round1 (pathLength (fun _ _ _ _ => 2)
              (⟨"drv", .in_transit, [⟨0, 0⟩, ⟨3, 4⟩, ⟨6, 8⟩], none, none,
                some 1, none⟩ : OrderRec).tracking))) :=
  ⟨Or.inl rfl, by decide,
   completion_computes_actual_distance_and_stats (fun _ _ _ _ => 2) 9 "drv" "driver"
     (⟨"drv", .in_transit, [⟨0, 0⟩, ⟨3, 4⟩, ⟨6, 8⟩], none, none, some 1, none⟩ : OrderRec)
     (⟨0, 0⟩ : DriverStats) (Or.inl rfl) (by decide)⟩

/-- C4 (counterexample): with vehicle minimum price M = 0 (a non-negative
value), per-km rate R = 1 and distance D = 1, the code charges
`(0 || 5000) = 5000` and then `max 5000 (1 * 1) = 5000`, not the claimed
`max(M, D × R) = 1`: the falsy-defaulting of `minimumPrice || 5000`
breaks the claimed formula at M = 0 (and likewise `pricePerKm || 500` at
R = 0). -/
theorem price_formula_fails_at_zero_minimum :
    (computeOrderPrice (fun _ _ _ _ => 1) "transport" ⟨1, 1⟩ (some ⟨2, 2⟩)
        (some 0) (some 1)).amount = 5000 ∧
    specPriceAmount 0 1 1 = 1 ∧
    (computeOrderPrice (fun _ _ _ _ => 1) "transport" ⟨1, 1⟩ (some ⟨2, 2⟩)
        (some 0) (some 1)).amount ≠ specPriceAmount 0 1 1 := by
  refine ⟨?_, ?_, ?_⟩ <;> norm_num [computeOrderPrice, specPriceAmount, jsNumOr]

/-- C4 (amended): for a transport order with nonzero pickup and dropoff
latitudes, a nonzero minimum price M and a nonzero per-km rate R (zero or
missing values are replaced by the defaults 5000 and 500), the computed
amount is `max(M, D × R)` with D the distance between the endpoints,
`platformFee = round(amount × 0.15)` and
`driverShare = amount − platformFee`; and for every order whatsoever,
`platformFee + driverShare = amount` at creation. -/
theorem price_computation_positive_inputs
    (dist : ℚ → ℚ → ℚ → ℚ → ℚ) (pickup dp : GeoPoint) (M R : ℚ)
    (hM : M ≠ 0) (hR : R ≠ 0) (hpl : pickup.lat ≠ 0) (hdl : dp.lat ≠ 0) :
    ((computeOrderPrice dist "transport" pickup (some dp) (some M) (some R)).amount =
        specPriceAmount M R (dist pickup.lat pickup.lon dp.lat dp.lon) ∧
      (computeOrderPrice dist "transport" pickup (some dp) (some M) (some R)).platformFee =
        ((round ((computeOrderPrice dist "transport" pickup (some dp) (some M)
            (some R)).amount * (15 / 100 : ℚ)) : ℤ) : ℚ) ∧
      (computeOrderPrice dist "transport" pickup (some dp) (some M) (some R)).driverShare =
        (computeOrderPrice dist "transport" pickup (some dp) (some M) (some R)).amount -
          (computeOrderPrice dist "transport" pickup (some dp) (some M) (some R)).platformFee) ∧
    (∀ (styp : String) (pk : GeoPoint) (dr : Option GeoPoint) (m r : Option ℚ),
      (computeOrderPrice dist styp pk dr m r).platformFee +
          (computeOrderPrice dist styp pk dr m r).driverShare =
        (computeOrderPrice dist styp pk dr m r).amount) := by
  constructor
  · refine ⟨?_, ?_, ?_⟩
    · simp [computeOrderPrice, jsNumOr, hM, hR, hpl, hdl, specPriceAmount, mul_comm]
    · simp [computeOrderPrice]
    · simp [computeOrderPrice]
  · intro styp pk dr m r
    simp only [computeOrderPrice]
    ring

/-- C4 (witness for the amended theorem): M = 5000, R = 500, D = 10, so
amount = max 5000 5000 = 5000, fee = round 750 = 750, share = 4250. -/
theorem price_computation_positive_inputs_witness :
    ((5000 : ℚ) ≠ 0 ∧ (500 : ℚ) ≠ 0 ∧
      (⟨1, 2⟩ : GeoPoint).lat ≠ 0 ∧ (⟨3, 4⟩ : GeoPoint).lat ≠ 0) ∧
    (computeOrderPrice (fun _ _ _ _ => 10) "transport" ⟨1, 2⟩ (some ⟨3, 4⟩)
        (some 5000) (some 500)).amount =
      specPriceAmount 5000 500
        ((fun _ _ _ _ => (10 : ℚ)) (⟨1, 2⟩ : GeoPoint).lat (⟨1, 2⟩ : GeoPoint).lon
          (⟨3, 4⟩ : GeoPoint).lat (⟨3, 4⟩ : GeoPoint).lon) ∧
    (computeOrderPrice (fun _ _ _ _ => 10) "transport" ⟨1, 2⟩ (some ⟨3, 4⟩)
        (some 5000) (some 500)).platformFee +
      (computeOrderPrice (fun _ _ _ _ => 10) "transport" ⟨1, 2⟩ (some ⟨3, 4⟩)
        (some 5000) (some 500)).driverShare =
      (computeOrderPrice (fun _ _ _ _ => 10) "transport" ⟨1, 2⟩ (some ⟨3, 4⟩)
        (some 5000) (some 500)).amount :=
  ⟨⟨by norm_num, by norm_num, by norm_num, by norm_num⟩,
   ((price_computation_positive_inputs (fun _ _ _ _ => 10) ⟨1, 2⟩ ⟨3, 4⟩ 5000 500
      (by norm_num) (by norm_num) (by norm_num) (by norm_num)).1).1,
   (price_computation_positive_inputs (fun _ _ _ _ => 10) ⟨1, 2⟩ ⟨3, 4⟩ 5000 500
      (by norm_num) (by norm_num) (by norm_num) (by norm_num)).2
     "transport" ⟨1, 2⟩ (some ⟨3, 4⟩) (some 5000) (some 500)⟩

/-- C3: the confirm-recharge route contradicts the claimed settlement
discipline on both counts.  Evaluating the embedded route on a pending
100-unit transaction with wallet balance 0 shows: (1) after the first
durable step the transaction is already saved as `confirmed` while the
balance is still 0 — it is marked confirmed before the balance update has
succeeded; (2) a full confirm credits the balance to 100; (3) repeating
the confirm on the now-confirmed transaction credits it again, to 200 —
the operation is not idempotent under retry. -/
theorem confirm_recharge_not_idempotent :
    (confirmRechargeSave "adm" 5
        (⟨some (⟨100, "pending", none, none⟩ : WalletTxn), 0⟩ : RechargeState)).txn =
      some (⟨100, "confirmed", some 5, some "adm"⟩ : WalletTxn) ∧
    (confirmRechargeSave "adm" 5
        (⟨some (⟨100, "pending", none, none⟩ : WalletTxn), 0⟩ : RechargeState)).balance = 0 ∧
    (confirmRecharge "adm" 5
        (⟨some (⟨100, "pending", none, none⟩ : WalletTxn), 0⟩ : RechargeState)).balance = 100 ∧
    (confirmRecharge "adm" 6 (confirmRecharge "adm" 5
        (⟨some (⟨100, "pending", none, none⟩ : WalletTxn), 0⟩ : RechargeState))).balance = 200 ∧
    (confirmRecharge "adm" 6 (confirmRecharge "adm" 5
        (⟨some (⟨100, "pending", none, none⟩ : WalletTxn), 0⟩ : RechargeState))).txn =
      some (⟨100, "confirmed", some 6, some "adm"⟩ : WalletTxn) := by
  refine ⟨by decide, by decide, ?_, ?_, by decide⟩ <;>
    norm_num [confirmRecharge, confirmRechargeSave, confirmRechargeCredit]

end EnRoute
